import Mathlib

/-!
# GamblingKingsBackend — game-state synchronization core, shallow embedding

Shallow embedding of the mahjong game-state service
(`gameStateDBService`), the broadcast engine (`gameBroadcast`), the
connection/user service (`userDBService`) and the CREATE_GAME handler
(`onCreateGame`).  DynamoDB records are modelled as Lean structures; a
possibly-missing record at a key is an `Option`; a conditional update
that is rejected returns `none` and leaves the record untouched, which
is the "no update occurred" result the service functions surface via
`parseDynamoDBAttribute`.  All randomness (the shuffled wall, the dealt
hands) is passed in as explicit parameters.
-/

namespace GamblingKings

/-- Modelled from the spec: `Wall.DEFAULT_WALL_LENGTH = 144`, the
authoritative wall-exhaustion threshold (the `Wall` class itself is not
part of the embedded sources; the spec fixes the constant). -/
def DEFAULT_WALL_LENGTH : Nat := 144

/-- Modelled from the spec: `DEFAULT_MAX_USERS_IN_GAME = 4`, the
4-player bound used by the conditional updates (the constants module is
not part of the embedded sources; the spec fixes the constant). -/
def DEFAULT_MAX_USERS_IN_GAME : Nat := 4

/-- One user hand entry of `GameState.hands`
(model `UserHand` of `models/GameState`). -/
structure UserHand where
  connectionId : String
  hand : List String
  playedTiles : List String
  deriving Repr, DecidableEq

/-- One pending interaction record of `GameState.playedTileInteractions`
(model `PlayedTile` of `models/GameState`). -/
structure PlayedTile where
  connectionId : String
  playedTiles : List String
  meldType : String
  skipInteraction : Bool
  deriving Repr, DecidableEq

/-- The per-game authoritative record of the GameState table. -/
structure GameState where
  gameId : String
  wall : List String
  hands : List UserHand
  currentIndex : Nat
  dealer : Nat
  currentWind : Nat
  currentTurn : Nat
  interactionCount : Nat
  playedTileInteractions : List PlayedTile
  deriving Repr, DecidableEq

/-- `incrementCurrentTileIndex(gameId)`: unconditional
`ADD currentIndex 1` on the record. -/
def incrementCurrentTileIndex (st : GameState) : GameState :=
  { st with currentIndex := st.currentIndex + 1 }

/-- `drawTile(gameId)`: reads `wall` and `currentIndex`; if the index
reached `DEFAULT_WALL_LENGTH` returns the empty-string signal and does
not touch the record, otherwise returns `wall[currentIndex]` and then
increments `currentIndex` by 1.  The drawn tile is `Option String`
because a JavaScript out-of-range read yields `undefined`; the explicit
exhaustion signal is `some ""`. -/
def drawTile (st : GameState) : Option String × GameState :=
  if DEFAULT_WALL_LENGTH ≤ st.currentIndex then
    (some "", st)
  else
    (st.wall.get? st.currentIndex, incrementCurrentTileIndex st)

/-- `changeWind(gameId)` on an existing record (the source throws before
the update when the record is missing): computes
`nextWindNum = (currentWind + 1) % 4` and applies the conditional update
`SET currentWind = nextWindNum` guarded by
`nextWindNum < DEFAULT_MAX_USERS_IN_GAME`; a rejected condition is the
`none` result, leaving the record untouched. -/
def changeWind (st : GameState) : Option GameState :=
  let nextWindNum := (st.currentWind + 1) % 4
  if nextWindNum < DEFAULT_MAX_USERS_IN_GAME then
    some { st with currentWind := nextWindNum }
  else
    none

/-- `changeDealer(gameId)` on an existing record: computes
`nextDealerIndex = (dealer + 1) % 4`; when that wraps to 0 it first runs
`changeWind` (whose failure would propagate as an exception, modelled by
`none`), then applies `SET dealer = nextDealerIndex` guarded by
`nextDealerIndex < DEFAULT_MAX_USERS_IN_GAME`. -/
def changeDealer (st : GameState) : Option GameState :=
  let nextDealerIndex := (st.dealer + 1) % 4
  let afterWind : Option GameState :=
    if nextDealerIndex = 0 then changeWind st else some st
  match afterWind with
  | none => none
  | some st1 =>
    if nextDealerIndex < DEFAULT_MAX_USERS_IN_GAME then
      some { st1 with dealer := nextDealerIndex }
    else
      none

/-- `setPlayedTileInteraction(gameId, connectionId, playedTiles, meld,
skipInteraction)`: conditional update
`ADD interactionCount 1, SET playedTileInteractions =
list_append(playedTileInteractions, [playedTileVal])` guarded by
`attribute_exists(gameId) AND interactionCount < DEFAULT_MAX_USERS_IN_GAME`.
Input is the record stored at `gameId` (or `none`); output is
(returned value, new stored record); a rejected condition returns `none`
and leaves the record untouched. -/
def setPlayedTileInteraction (store : Option GameState) (connectionId : String)
    (playedTiles : List String) (meld : String) (skipInteraction : Bool) :
    Option GameState × Option GameState :=
  match store with
  | none => (none, none)
  | some st =>
    if st.interactionCount < DEFAULT_MAX_USERS_IN_GAME then
      let playedTileVal : PlayedTile :=
        { connectionId, playedTiles, meldType := meld, skipInteraction }
      let st' := { st with
        interactionCount := st.interactionCount + 1,
        playedTileInteractions := st.playedTileInteractions ++ [playedTileVal] }
      (some st', some st')
    else
      (none, some st)

/-- `resetPlayedTileInteraction(gameId)`: conditional update
`SET interactionCount = 0, playedTileInteractions = []` guarded by
`attribute_exists(gameId)`. -/
def resetPlayedTileInteraction (store : Option GameState) :
    Option GameState × Option GameState :=
  match store with
  | none => (none, none)
  | some st =>
    let st' := { st with interactionCount := 0, playedTileInteractions := [] }
    (some st', some st')

/-- The output of the external tile machinery for one fresh round: the
shuffled `HongKongWall` tiles, the hands dealt by
`generateHongKongMahjongHands`, and the wall cursor after dealing.  The
`Wall`/`HongKongWall` classes and the dealing helper are not part of the
embedded sources, so their result enters as an explicit parameter. -/
structure FreshRound where
  wall : List String
  hands : List UserHand
  currentIndex : Nat
  deriving Repr, DecidableEq

/-- `initGameState(gameId, connectionIds)`: builds the initial record
(dealer 0, wind 0, turn 0, interaction fields cleared) around the
freshly shuffled wall and dealt hands, stores it with an unconditional
put (overwriting any previous record), and returns it. -/
def initGameState (gameId : String) (fresh : FreshRound) :
    GameState × Option GameState :=
  let initialGame : GameState :=
    { gameId
      wall := fresh.wall
      hands := fresh.hands
      currentIndex := fresh.currentIndex
      dealer := 0
      currentWind := 0
      currentTurn := 0
      interactionCount := 0
      playedTileInteractions := [] }
  (initialGame, some initialGame)

/-- `startNewGameRound(gameId, connectionIds, isDealerChanged)`:
conditional update replacing `currentIndex`, `wall`, `hands`,
`interactionCount`, `playedTileInteractions` (not `dealer`, `currentWind`
or `currentTurn`) guarded by `attribute_exists(gameId)`; when
`isDealerChanged` it then runs `changeDealer` on the stored record and
returns its result (a `changeDealer` failure would propagate as an
exception, modelled by `none`; that branch is unreachable because
`(dealer + 1) % 4 < 4` always holds, proved below). -/
def startNewGameRound (store : Option GameState) (fresh : FreshRound)
    (isDealerChanged : Bool) : Option GameState × Option GameState :=
  match store with
  | none => (none, none)
  | some st =>
    let st1 := { st with
      currentIndex := fresh.currentIndex
      wall := fresh.wall
      hands := fresh.hands
      interactionCount := 0
      playedTileInteractions := [] }
    if isDealerChanged then
      match changeDealer st1 with
      | none => (none, some st1)
      | some st2 => (some st2, some st2)
    else
      (some st1, some st1)

/-! ## Broadcast engine (`gameBroadcast`) -/

/-- One entry of the `selfPlayedTiles` field of a GAME_START payload
(model `SelfPlayedTile` of `models/GameState`): a player's connection id
with that player's publicly visible played tiles. -/
structure SelfPlayedTile where
  connectionId : String
  playedTiles : List String
  deriving Repr, DecidableEq

/-- The personalized GAME_START payload
(`createGameStartResponse({ tiles, selfPlayedTiles, currentIndex })`). -/
structure GameStartPayload where
  tiles : List String
  selfPlayedTiles : List SelfPlayedTile
  currentIndex : Nat
  deriving Repr, DecidableEq

/-- Modelled from the spec: `getHandByConnectionId(hands, connectionId)`
of `dbHelper` (not part of the embedded sources) selects the recipient's
own hand entry from `hands` — "`tiles` is the recipient's own hand
only". -/
def getHandByConnectionId (hands : List UserHand) (connectionId : String) :
    UserHand :=
  (hands.find? (fun h => h.connectionId == connectionId)).getD
    { connectionId, hand := [], playedTiles := [] }

/-- The per-recipient fan-out of `broadcastGameStart`: collects
`allSelfPlayedTilesAtStart` from `hands`, then maps over `connectionIds`
building one personalized GAME_START message per connection (tiles are
the recipient's own hand).  One `ws.send` per list entry, modelled as
the (recipient, payload) list. -/
def gameStartMessages (hands : List UserHand) (currentIndex : Nat)
    (connectionIds : List String) : List (String × GameStartPayload) :=
  let allSelfPlayedTilesAtStart : List SelfPlayedTile :=
    hands.map (fun hand => { connectionId := hand.connectionId, playedTiles := hand.playedTiles })
  connectionIds.map (fun connectionId =>
    (connectionId,
      { tiles := (getHandByConnectionId hands connectionId).hand
        selfPlayedTiles := allSelfPlayedTilesAtStart
        currentIndex }))

/-- `broadcastGameStart(ws, gameId, connectionIds, startNewGame,
gameState?)`: on `startNewGame` it creates a fresh record via
`initGameState` and fans its hands out; otherwise it uses the
`gameState` argument, throwing when that is absent.  The result is the
list of (recipient, payload) sends; the thrown error is the `Except`
error.  (The store effect of the `startNewGame` branch is
`initGameState`'s put, modelled above.) -/
def broadcastGameStart (gameId : String) (connectionIds : List String)
    (startNewGame : Bool) (gameState : Option GameState) (fresh : FreshRound) :
    Except String (List (String × GameStartPayload)) :=
  if startNewGame then
    let newGameState := (initGameState gameId fresh).1
    .ok (gameStartMessages newGameState.hands newGameState.currentIndex connectionIds)
  else
    match gameState with
    | some gs => .ok (gameStartMessages gs.hands gs.currentIndex connectionIds)
    | none =>
      .error "broadcastGameStart: Failed to start a new game, please double check params passed in"

/-- `broadcastGameReset(ws, connectionIds, gameState)` delegates to
`broadcastGameStart(ws, '', connectionIds, false, gameState)` (the
`fresh` parameter is unused on the `startNewGame = false` path). -/
def broadcastGameReset (connectionIds : List String) (gameState : GameState) :
    Except String (List (String × GameStartPayload)) :=
  broadcastGameStart "" connectionIds false (some gameState)
    { wall := [], hands := [], currentIndex := 0 }

/-- A connection record of the Connections table (model `User`). -/
structure User where
  connectionId : String
  username : Option String
  gameId : Option String
  deriving Repr, DecidableEq

/-- `getConnectionIdsFromUsers(usersList)` of `broadcastHelper`. -/
def getConnectionIdsFromUsers (users : List User) : List String :=
  users.map (fun user => user.connectionId)

/-- A Lambda handler result (`response(statusCode, body)` of
`responseHelper`). -/
structure LambdaResponse where
  statusCode : Nat
  body : String
  deriving Repr, DecidableEq

/-- `response(statusCode, body)`. -/
def response (statusCode : Nat) (body : String) : LambdaResponse :=
  { statusCode, body }

/-- The observable steps of `startNewRoundAndSendUpdates`, in execution
order: the `startNewGameRound` state mutation, the UPDATE_GAME_STATE
broadcast, the 5-second `sleep`, and the GAME_START broadcast
(`broadcastGameReset`). -/
inductive BroadcastEvent where
  | stateMutation (isDealerChanged : Bool)
  | updateGameState (recipients : List String) (dealer : Nat) (wind : Nat)
  | delayMs (ms : Nat)
  | gameStart (messages : List (String × GameStartPayload))
  deriving Repr, DecidableEq

/-- `startNewRoundAndSendUpdates(ws, gameId, connectionId, users,
dealer)`: computes the connection ids, mutates state via
`startNewGameRound` with `isDealerChanged = (users[dealer].connectionId
!== connectionId)`, returns a 400 response with no broadcast when no
updated state comes back, and otherwise broadcasts UPDATE_GAME_STATE
with the new dealer/wind, sleeps 5000 ms, and broadcasts GAME_START via
`broadcastGameReset`.  Output: ((handler result, new stored record),
the ordered event trace). -/
def startNewRoundAndSendUpdates (store : Option GameState) (fresh : FreshRound)
    (connectionId : String) (users : List User) (dealer : Nat) :
    (Option LambdaResponse × Option GameState) × List BroadcastEvent :=
  let connectionIds := getConnectionIdsFromUsers users
  let isDealerChanged : Bool :=
    (users.getD dealer { connectionId := "", username := none, gameId := none }).connectionId
      != connectionId
  let updated := startNewGameRound store fresh isDealerChanged
  match updated.1 with
  | none =>
    ((some (response 400 "Cannot start new game round"), updated.2),
      [.stateMutation isDealerChanged])
  | some updatedGameState =>
    match broadcastGameReset connectionIds updatedGameState with
    | .ok messages =>
      ((none, updated.2),
        [.stateMutation isDealerChanged,
         .updateGameState connectionIds updatedGameState.dealer updatedGameState.currentWind,
         .delayMs 5000,
         .gameStart messages])
    | .error _ =>
      -- unreachable: `broadcastGameReset` never throws on a present record
      ((none, updated.2),
        [.stateMutation isDealerChanged,
         .updateGameState connectionIds updatedGameState.dealer updatedGameState.currentWind,
         .delayMs 5000])

/-! ## User service (`userDBService`) and the CREATE_GAME handler -/

/-- `setUsername(connectionId, username)`: conditional update
`SET username = :usernameVal` on the Connections record at key
`connectionId`, guarded by `connectionId = :connectionIdVal and
:usernameVal <> :emptyString`; a missing record makes the condition
fail (so no record is created), as does an empty username.  Input is
the record stored at the key (or `none`); output is (returned value,
new stored record). -/
def setUsername (store : Option User) (connectionId : String)
    (username : String) : Option User × Option User :=
  match store with
  | none => (none, none)
  | some u =>
    if u.connectionId = connectionId ∧ username ≠ "" then
      let u' := { u with username := some username }
      (some u', some u')
    else
      (none, some u)

/-- `setGameIdForUser(connectionId, gameId)`: conditional update
`SET gameId = :gameIdVal` on the Connections record at key
`connectionId`, guarded by `connectionId = :connectionIdVal AND
attribute_not_exists(gameId)`; fails on a missing record or when the
record already carries a `gameId`. -/
def setGameIdForUser (store : Option User) (connectionId : String)
    (gameId : String) : Option User × Option User :=
  match store with
  | none => (none, none)
  | some u =>
    if u.connectionId = connectionId ∧ u.gameId = none then
      let u' := { u with gameId := some gameId }
      (some u', some u')
    else
      (none, some u)

/-- A lobby Game record (model `Game`), with the fields the CREATE_GAME
handler passes to `createGame`. -/
structure Game where
  gameId : String
  gameName : Option String
  gameType : Option String
  gameVersion : Option String
  creatorConnectionId : String
  deriving Repr, DecidableEq

/-- Modelled from the spec: `createGame(creator, name, type, version) ->
Game` of `gameDBService` (not part of the embedded sources) creates and
stores a new Game record with a fresh `gameId` and the creator as host;
per the spec the "already in a game" enforcement is "the connection's
`gameId` field being unset", i.e. `setGameIdForUser`'s condition, not a
condition of this put.  The fresh id enters as `newGameId`. -/
def createGame (games : List Game) (creatorConnectionId : String)
    (gameName gameType gameVersion : Option String) (newGameId : String) :
    Game × List Game :=
  let g : Game := { gameId := newGameId, gameName, gameType, gameVersion, creatorConnectionId }
  (g, games ++ [g])

/-- The `game` object of a CREATE_GAME payload. -/
structure CreateGamePayloadGame where
  gameName : Option String
  gameType : Option String
  gameVersion : Option String
  deriving Repr, DecidableEq

/-- The records the CREATE_GAME handler touches: the caller's
Connections record and the Games table. -/
structure LobbyStore where
  callerRecord : Option User
  games : List Game
  deriving Repr, DecidableEq

/-- The CREATE_GAME handler (`onCreateGame.handler`): rejects a missing
`game` payload with 400 before any mutation; otherwise creates the Game
record via `createGame`, then links it to the caller via
`setGameIdForUser` — whose rejected conditional update throws, landing
in the catch block which returns 500 (without undoing the `createGame`
put); on success it replies 200. -/
def onCreateGame (connectionId : String)
    (payloadGame : Option CreateGamePayloadGame) (store : LobbyStore)
    (newGameId : String) : LambdaResponse × LobbyStore :=
  match payloadGame with
  | none => (response 400 "Games attribute cannot be empty", store)
  | some game =>
    let created := createGame store.games connectionId
      game.gameName game.gameType game.gameVersion newGameId
    let returnedGameObj := created.1
    let linked := setGameIdForUser store.callerRecord connectionId returnedGameObj.gameId
    match linked.1 with
    | none =>
      (response 500 "ConditionalCheckFailedException",
        { callerRecord := linked.2, games := created.2 })
    | some _ =>
      (response 200 "Game created successfully",
        { callerRecord := linked.2, games := created.2 })

/-! ## Claim scaffolding and concrete sample inputs -/

/-- A sequence of `setPlayedTileInteraction` calls (arguments
`connectionId, playedTiles, meld, skipInteraction`), applied in order to
the stored record; each step's store output feeds the next call. -/
def applyInteractions (store : Option GameState)
    (calls : List (String × List String × String × Bool)) : Option GameState :=
  calls.foldl
    (fun s call => (setPlayedTileInteraction s call.1 call.2.1 call.2.2.1 call.2.2.2).2)
    store

/-- Two game states that a given recipient `c` cannot tell apart from
public data: same `currentIndex`, hands lists of the same length that
agree pointwise on `connectionId` and on the public `playedTiles` piles,
and agree on the concealed `hand` of `c`'s own entries — the concealed
hands of the other players are unconstrained. -/
def agreeExceptConcealed (c : String) (gs₁ gs₂ : GameState) : Prop :=
  gs₁.currentIndex = gs₂.currentIndex ∧
  gs₁.hands.length = gs₂.hands.length ∧
  ∀ p ∈ gs₁.hands.zip gs₂.hands,
    p.1.connectionId = p.2.connectionId ∧ p.1.playedTiles = p.2.playedTiles ∧
    (p.1.connectionId = c → p.1.hand = p.2.hand)

/-- Sample dealt hands for four players. -/
def sampleHands : List UserHand :=
  [{ connectionId := "conn-A", hand := ["a1", "a2"], playedTiles := [] },
   { connectionId := "conn-B", hand := ["b1", "b2"], playedTiles := ["p1"] },
   { connectionId := "conn-C", hand := ["c1"], playedTiles := [] },
   { connectionId := "conn-D", hand := ["d1"], playedTiles := [] }]

/-- A sample stored game record with a full 144-tile wall. -/
def sampleGameState : GameState :=
  { gameId := "game-1"
    wall := List.replicate 144 "w1"
    hands := sampleHands
    currentIndex := 53
    dealer := 0
    currentWind := 0
    currentTurn := 0
    interactionCount := 0
    playedTileInteractions := [] }

/-- `sampleGameState` with a different concealed hand for `conn-B` and
everything public unchanged. -/
def sampleGameStateB : GameState :=
  { sampleGameState with
    hands :=
      [{ connectionId := "conn-A", hand := ["a1", "a2"], playedTiles := [] },
       { connectionId := "conn-B", hand := ["x9", "x8", "x7"], playedTiles := ["p1"] },
       { connectionId := "conn-C", hand := ["c1"], playedTiles := [] },
       { connectionId := "conn-D", hand := ["d1"], playedTiles := [] }] }

/-- Sample connection records for the four players of `sampleGameState`. -/
def sampleUsers : List User :=
  [{ connectionId := "conn-A", username := some "alice", gameId := some "game-1" },
   { connectionId := "conn-B", username := some "bob", gameId := some "game-1" },
   { connectionId := "conn-C", username := some "carol", gameId := some "game-1" },
   { connectionId := "conn-D", username := some "dave", gameId := some "game-1" }]

/-- A sample fresh shuffled round (wall, dealt hands, cursor). -/
def sampleFresh : FreshRound :=
  { wall := List.replicate 144 "f1", hands := sampleHands, currentIndex := 53 }

/-! ## Theorems -/

/-- C1: for a game state whose wall has 144 entries, `drawTile` at
`currentIndex ≥ 144` returns the explicit empty-string signal and
leaves `currentIndex` unchanged; below 144 it returns
`wall[currentIndex]` (an actual tile of the wall, never out of range)
and increments `currentIndex` by exactly 1, so `currentIndex` is
monotonically non-decreasing across draws. -/
theorem drawTile_wall_bounds (st : GameState) (hwall : st.wall.length = 144) :
    (DEFAULT_WALL_LENGTH ≤ st.currentIndex → drawTile st = (some "", st)) ∧
    (st.currentIndex < DEFAULT_WALL_LENGTH →
      (drawTile st).1 = st.wall.get? st.currentIndex ∧
      (drawTile st).2 = { st with currentIndex := st.currentIndex + 1 } ∧
      ∃ t, (drawTile st).1 = some t ∧ t ∈ st.wall) ∧
    st.currentIndex ≤ (drawTile st).2.currentIndex ∧
    (drawTile st).1 ≠ none := by
  by_cases h : DEFAULT_WALL_LENGTH ≤ st.currentIndex
  · refine ⟨fun _ => by simp [drawTile, h], fun hlt => absurd h (by omega), ?_, ?_⟩
    · simp [drawTile, h]
    · simp [drawTile, h]
  · have hlt : st.currentIndex < DEFAULT_WALL_LENGTH := by omega
    have hlen : st.currentIndex < st.wall.length := by
      rw [hwall]; exact hlt
    have hget : st.wall.get? st.currentIndex = some (st.wall.get ⟨st.currentIndex, hlen⟩) :=
      List.get?_eq_get hlen
    refine ⟨fun hge => absurd hge h, fun _ => ⟨?_, ?_, ?_⟩, ?_, ?_⟩
    · simp [drawTile, h]
    · simp [drawTile, h, incrementCurrentTileIndex]
    · exact ⟨st.wall.get ⟨st.currentIndex, hlen⟩, by simp [drawTile, h, hget],
        List.get_mem _ _ _⟩
    · simp [drawTile, h, incrementCurrentTileIndex]
    · simp [drawTile, h, hget]
      exact hlen

/-- C1 witness: the sample state has a 144-entry wall, and drawing from
it neither fails nor yields an out-of-range tile. -/
theorem drawTile_wall_bounds_witness :
    sampleGameState.wall.length = 144 ∧ (drawTile sampleGameState).1 ≠ none :=
  ⟨by simp [sampleGameState],
   (drawTile_wall_bounds sampleGameState (by simp [sampleGameState])).2.2.2⟩

/-- C7: for a stored record with `currentWind` and `dealer` in `[0,4)`,
the computed next values `(x + 1) % 4` are always below
`DEFAULT_MAX_USERS_IN_GAME`, so the defensive failure branches of
`changeWind` and `changeDealer` are unreachable: both conditional
updates always succeed, and the stored values never wrap past the
bound. -/
theorem changeWind_changeDealer_never_wrap (st : GameState)
    (hw : st.currentWind < 4) (hd : st.dealer < 4) :
    ((st.currentWind + 1) % 4 < DEFAULT_MAX_USERS_IN_GAME ∧
      changeWind st = some { st with currentWind := (st.currentWind + 1) % 4 }) ∧
    ((st.dealer + 1) % 4 < DEFAULT_MAX_USERS_IN_GAME ∧
      ∃ st', changeDealer st = some st' ∧
        st'.dealer = (st.dealer + 1) % 4 ∧ st'.dealer < 4 ∧ st'.currentWind < 4) := by
  have h4 : ∀ x : Nat, (x + 1) % 4 < 4 := fun x => Nat.mod_lt _ (by norm_num)
  have hwind : changeWind st = some { st with currentWind := (st.currentWind + 1) % 4 } := by
    simp [changeWind, DEFAULT_MAX_USERS_IN_GAME, h4 st.currentWind]
  refine ⟨⟨h4 st.currentWind, hwind⟩, h4 st.dealer, ?_⟩
  by_cases hz : (st.dealer + 1) % 4 = 0
  · refine ⟨{ st with currentWind := (st.currentWind + 1) % 4, dealer := (st.dealer + 1) % 4 },
      ?_, rfl, h4 st.dealer, h4 st.currentWind⟩
    simp [changeDealer, hz, hwind, DEFAULT_MAX_USERS_IN_GAME, h4 st.dealer]
  · refine ⟨{ st with dealer := (st.dealer + 1) % 4 }, ?_, rfl, h4 st.dealer, hw⟩
    simp [changeDealer, hz, DEFAULT_MAX_USERS_IN_GAME, h4 st.dealer]

/-- C7 witness: the sample state is in bounds and its wind update
succeeds with the computed next wind. -/
theorem changeWind_changeDealer_never_wrap_witness :
    changeWind sampleGameState =
      some { sampleGameState with currentWind := (sampleGameState.currentWind + 1) % 4 } :=
  (changeWind_changeDealer_never_wrap sampleGameState
    (by simp [sampleGameState]) (by simp [sampleGameState])).1.2

/-- C8: `resetPlayedTileInteraction` on an existing record clears
`interactionCount` to 0 and `playedTileInteractions` to `[]` and leaves
every other field (`gameId`, `wall`, `hands`, `currentIndex`, `dealer`,
`currentWind`, `currentTurn`) unchanged; on a missing record the
conditional update is rejected and nothing changes. -/
theorem resetPlayedTileInteraction_frame (st : GameState) :
    resetPlayedTileInteraction none = (none, none) ∧
    ∃ st', resetPlayedTileInteraction (some st) = (some st', some st') ∧
      st'.interactionCount = 0 ∧ st'.playedTileInteractions = [] ∧
      st'.gameId = st.gameId ∧ st'.wall = st.wall ∧ st'.hands = st.hands ∧
      st'.currentIndex = st.currentIndex ∧ st'.dealer = st.dealer ∧
      st'.currentWind = st.currentWind ∧ st'.currentTurn = st.currentTurn := by
  exact ⟨rfl, { st with interactionCount := 0, playedTileInteractions := [] },
    rfl, rfl, rfl, rfl, rfl, rfl, rfl, rfl, rfl, rfl⟩

/-- C10: `setUsername` succeeds exactly when a record with the given
`connectionId` exists and the username is non-empty; an empty username
or a missing record leaves the store unchanged (no record is created)
and the function returns the absent value. -/
theorem setUsername_conditional (c un : String) (u : User) (hc : u.connectionId = c) :
    setUsername none c un = (none, none) ∧
    (un = "" → setUsername (some u) c un = (none, some u)) ∧
    (un ≠ "" →
      setUsername (some u) c un =
        (some { u with username := some un }, some { u with username := some un })) := by
  refine ⟨rfl, fun he => ?_, fun hne => ?_⟩
  · subst he
    simp [setUsername]
  · simp [setUsername, hc, hne]

/-- C10 witness: updating the username of an existing record `conn-A`
with the non-empty username `eve` succeeds. -/
theorem setUsername_conditional_witness :
    setUsername (some (User.mk "conn-A" (some "alice") (some "game-1"))) "conn-A" "eve" =
      (some (User.mk "conn-A" (some "eve") (some "game-1")),
       some (User.mk "conn-A" (some "eve") (some "game-1"))) :=
  (setUsername_conditional "conn-A" "eve"
    (User.mk "conn-A" (some "alice") (some "game-1")) rfl).2.2 (by decide)

/-- Helper: `changeDealer` when the next dealer index wraps to 0 —
the wind advances first, then the dealer is set. -/
theorem changeDealer_wrap (st : GameState) (hz : (st.dealer + 1) % 4 = 0) :
    changeDealer st =
      some { st with currentWind := (st.currentWind + 1) % 4, dealer := (st.dealer + 1) % 4 } := by
  have hw4 : (st.currentWind + 1) % 4 < 4 := Nat.mod_lt _ (by norm_num)
  have hd4 : (st.dealer + 1) % 4 < 4 := Nat.mod_lt _ (by norm_num)
  simp [changeDealer, changeWind, DEFAULT_MAX_USERS_IN_GAME, hz, hw4, hd4]

/-- Helper: `changeDealer` when the next dealer index does not wrap —
the wind is untouched. -/
theorem changeDealer_nowrap (st : GameState) (hz : (st.dealer + 1) % 4 ≠ 0) :
    changeDealer st = some { st with dealer := (st.dealer + 1) % 4 } := by
  have hd4 : (st.dealer + 1) % 4 < 4 := Nat.mod_lt _ (by norm_num)
  simp [changeDealer, changeWind, DEFAULT_MAX_USERS_IN_GAME, hz, hd4]

/-- Helper: `changeDealer` never touches the interaction fields. -/
theorem changeDealer_preserves_interactions (st st' : GameState)
    (h : changeDealer st = some st') :
    st'.interactionCount = st.interactionCount ∧
    st'.playedTileInteractions = st.playedTileInteractions := by
  by_cases hz : (st.dealer + 1) % 4 = 0
  · rw [changeDealer_wrap st hz] at h
    cases h
    exact ⟨rfl, rfl⟩
  · rw [changeDealer_nowrap st hz] at h
    cases h
    exact ⟨rfl, rfl⟩

/-- Helper: the `.1` of `startNewGameRound` on an existing record with
`isDealerChanged = true` is exactly `changeDealer` of the replaced
record. -/
theorem startNewGameRound_true_eq (st : GameState) (fresh : FreshRound) :
    (startNewGameRound (some st) fresh true).1 =
      changeDealer { st with
        currentIndex := fresh.currentIndex
        wall := fresh.wall
        hands := fresh.hands
        interactionCount := 0
        playedTileInteractions := [] } := by
  cases h : changeDealer { st with
      currentIndex := fresh.currentIndex
      wall := fresh.wall
      hands := fresh.hands
      interactionCount := 0
      playedTileInteractions := [] } <;>
    simp [startNewGameRound, h]

/-- C2: `setPlayedTileInteraction` on an existing record with
`interactionCount < 4` appends exactly one interaction record and
increments `interactionCount` by exactly 1; on a missing record or with
`interactionCount ≥ 4` the conditional update is rejected — the absent
value is returned and no field changes. -/
theorem setPlayedTileInteraction_conditional (st : GameState) (c : String)
    (pts : List String) (m : String) (sk : Bool) :
    setPlayedTileInteraction none c pts m sk = (none, none) ∧
    (st.interactionCount < DEFAULT_MAX_USERS_IN_GAME →
      setPlayedTileInteraction (some st) c pts m sk =
        (some { st with
            interactionCount := st.interactionCount + 1
            playedTileInteractions := st.playedTileInteractions ++
              [{ connectionId := c, playedTiles := pts, meldType := m, skipInteraction := sk }] },
         some { st with
            interactionCount := st.interactionCount + 1
            playedTileInteractions := st.playedTileInteractions ++
              [{ connectionId := c, playedTiles := pts, meldType := m, skipInteraction := sk }] })) ∧
    (DEFAULT_MAX_USERS_IN_GAME ≤ st.interactionCount →
      setPlayedTileInteraction (some st) c pts m sk = (none, some st)) := by
  refine ⟨rfl, fun hlt => ?_, fun hge => ?_⟩
  · simp [setPlayedTileInteraction, hlt]
  · simp [setPlayedTileInteraction, Nat.not_lt.mpr hge]

/-- C2 witness: a concrete successful interaction on the sample state
appends one record and bumps the count to 1. -/
theorem setPlayedTileInteraction_conditional_witness :
    setPlayedTileInteraction (some sampleGameState) "conn-B" ["p1", "p1", "p1"] "triplet" false =
      (some { sampleGameState with
          interactionCount := sampleGameState.interactionCount + 1
          playedTileInteractions := sampleGameState.playedTileInteractions ++
            [{ connectionId := "conn-B", playedTiles := ["p1", "p1", "p1"],
               meldType := "triplet", skipInteraction := false }] },
       some { sampleGameState with
          interactionCount := sampleGameState.interactionCount + 1
          playedTileInteractions := sampleGameState.playedTileInteractions ++
            [{ connectionId := "conn-B", playedTiles := ["p1", "p1", "p1"],
               meldType := "triplet", skipInteraction := false }] }) :=
  (setPlayedTileInteraction_conditional sampleGameState "conn-B" ["p1", "p1", "p1"]
    "triplet" false).2.1 (by simp [sampleGameState, DEFAULT_MAX_USERS_IN_GAME])

/-- C4: on an existing record, `startNewGameRound` with
`isDealerChanged = true` sets the dealer to `(old dealer + 1) % 4` and
advances the wind by 1 (mod 4) exactly when the new dealer wraps to 0;
with `isDealerChanged = false` dealer and wind are unchanged.  In
particular dealer 3 becomes 0 with the wind advanced, and dealer 1
becomes 2 with the wind unchanged. -/
theorem startNewGameRound_dealer_wind (st : GameState) (fresh : FreshRound) :
    (∃ st', (startNewGameRound (some st) fresh true).1 = some st' ∧
      st'.dealer = (st.dealer + 1) % 4 ∧
      st'.currentWind =
        (if (st.dealer + 1) % 4 = 0 then (st.currentWind + 1) % 4 else st.currentWind)) ∧
    (∃ st', (startNewGameRound (some st) fresh false).1 = some st' ∧
      st'.dealer = st.dealer ∧ st'.currentWind = st.currentWind) ∧
    (st.dealer = 3 → ∃ st', (startNewGameRound (some st) fresh true).1 = some st' ∧
      st'.dealer = 0 ∧ st'.currentWind = (st.currentWind + 1) % 4) ∧
    (st.dealer = 1 → ∃ st', (startNewGameRound (some st) fresh true).1 = some st' ∧
      st'.dealer = 2 ∧ st'.currentWind = st.currentWind) := by
  have hmain : ∃ st', (startNewGameRound (some st) fresh true).1 = some st' ∧
      st'.dealer = (st.dealer + 1) % 4 ∧
      st'.currentWind =
        (if (st.dealer + 1) % 4 = 0 then (st.currentWind + 1) % 4 else st.currentWind) := by
    rw [startNewGameRound_true_eq]
    by_cases hz : (st.dealer + 1) % 4 = 0
    · rw [changeDealer_wrap { st with
          currentIndex := fresh.currentIndex
          wall := fresh.wall
          hands := fresh.hands
          interactionCount := 0
          playedTileInteractions := [] } hz]
      exact ⟨_, rfl, rfl, by simp [hz]⟩
    · rw [changeDealer_nowrap { st with
          currentIndex := fresh.currentIndex
          wall := fresh.wall
          hands := fresh.hands
          interactionCount := 0
          playedTileInteractions := [] } hz]
      exact ⟨_, rfl, rfl, by simp [hz]⟩
  refine ⟨hmain,
    ⟨{ st with
        currentIndex := fresh.currentIndex
        wall := fresh.wall
        hands := fresh.hands
        interactionCount := 0
        playedTileInteractions := [] }, rfl, rfl, rfl⟩,
    fun h3 => ?_, fun h1 => ?_⟩
  · obtain ⟨st', h, hd, hw⟩ := hmain
    refine ⟨st', h, ?_, ?_⟩
    · rw [hd, h3]
    · rw [hw, h3]
      norm_num
  · obtain ⟨st', h, hd, hw⟩ := hmain
    refine ⟨st', h, ?_, ?_⟩
    · rw [hd, h1]
    · rw [hw, h1]
      norm_num

/-- C4 witness: with dealer 3 on a concrete record, the new round has
dealer 0 and the wind advanced by 1. -/
theorem startNewGameRound_dealer_wind_witness :
    ∃ st', (startNewGameRound (some { sampleGameState with dealer := 3 }) sampleFresh true).1 =
        some st' ∧
      st'.dealer = 0 ∧
      st'.currentWind = ({ sampleGameState with dealer := 3 }.currentWind + 1) % 4 :=
  (startNewGameRound_dealer_wind { sampleGameState with dealer := 3 } sampleFresh).2.2.1 rfl

/-- Helper: applying a sequence of `setPlayedTileInteraction` calls to
a record whose count matches its list length, with room below the
4-bound, succeeds throughout and adds one count and one entry per
call. -/
theorem applyInteractions_adds (calls : List (String × List String × String × Bool)) :
    ∀ st : GameState,
      st.interactionCount = st.playedTileInteractions.length →
      st.interactionCount + calls.length ≤ DEFAULT_MAX_USERS_IN_GAME →
      ∃ st', applyInteractions (some st) calls = some st' ∧
        st'.interactionCount = st.interactionCount + calls.length ∧
        st'.playedTileInteractions.length =
          st.playedTileInteractions.length + calls.length := by
  induction calls with
  | nil =>
    intro st hinv _
    exact ⟨st, rfl, by simp, by simp⟩
  | cons call rest ih =>
    intro st hinv hb
    have hb' : st.interactionCount + (rest.length + 1) ≤ 4 := by
      simpa [DEFAULT_MAX_USERS_IN_GAME] using hb
    have hlt : st.interactionCount < DEFAULT_MAX_USERS_IN_GAME := by
      simp only [DEFAULT_MAX_USERS_IN_GAME]
      omega
    obtain ⟨st', h1, h2, h3⟩ := ih
      { st with
        interactionCount := st.interactionCount + 1
        playedTileInteractions := st.playedTileInteractions ++
          [{ connectionId := call.1, playedTiles := call.2.1,
             meldType := call.2.2.1, skipInteraction := call.2.2.2 }] }
      (by simp [hinv])
      (by show st.interactionCount + 1 + rest.length ≤ DEFAULT_MAX_USERS_IN_GAME
          simp only [DEFAULT_MAX_USERS_IN_GAME]
          omega)
    refine ⟨st', ?_, ?_, ?_⟩
    · rw [← h1]
      simp [applyInteractions, setPlayedTileInteraction, hlt]
    · rw [h2]
      simp
      omega
    · rw [h3]
      simp
      omega

/-- C3: `interactionCount` always equals the length of
`playedTileInteractions`: it holds after `initGameState` (0 and `[]`)
and is preserved by `setPlayedTileInteraction` (+1 and one appended
entry), `resetPlayedTileInteraction` (0 and `[]`) and
`startNewGameRound` (0 and `[]`); after N ≤ 3 successful
`setPlayedTileInteraction` calls from a reset state the count is N and
the list has exactly N entries. -/
theorem interactionCount_matches_length :
    (∀ gid fresh, ((initGameState gid fresh).1).interactionCount =
      ((initGameState gid fresh).1).playedTileInteractions.length) ∧
    (∀ st : GameState, st.interactionCount = st.playedTileInteractions.length →
      ∀ c pts m sk st', (setPlayedTileInteraction (some st) c pts m sk).2 = some st' →
        st'.interactionCount = st'.playedTileInteractions.length) ∧
    (∀ store st', (resetPlayedTileInteraction store).2 = some st' →
      st'.interactionCount = st'.playedTileInteractions.length) ∧
    (∀ store fresh b st', (startNewGameRound store fresh b).2 = some st' →
      st'.interactionCount = st'.playedTileInteractions.length) ∧
    (∀ st0 : GameState, st0.interactionCount = 0 → st0.playedTileInteractions = [] →
      ∀ calls : List (String × List String × String × Bool), calls.length ≤ 3 →
        ∃ st', applyInteractions (some st0) calls = some st' ∧
          st'.interactionCount = calls.length ∧
          st'.playedTileInteractions.length = calls.length) := by
  refine ⟨fun gid fresh => rfl, ?_, ?_, ?_, ?_⟩
  · intro st hinv c pts m sk st' h
    by_cases hlt : st.interactionCount < DEFAULT_MAX_USERS_IN_GAME
    · simp [setPlayedTileInteraction, hlt] at h
      rw [← h]
      simp [hinv]
    · simp [setPlayedTileInteraction, hlt] at h
      rw [← h]
      exact hinv
  · intro store st' h
    cases store with
    | none => exact absurd h (by simp [resetPlayedTileInteraction])
    | some st =>
      simp [resetPlayedTileInteraction] at h
      rw [← h]
      rfl
  · intro store fresh b st' h
    cases store with
    | none => exact absurd h (by simp [startNewGameRound])
    | some st =>
      cases b with
      | false =>
        simp [startNewGameRound] at h
        rw [← h]
        rfl
      | true =>
        rw [startNewGameRound] at h
        simp only at h
        cases hcd : changeDealer { st with
            currentIndex := fresh.currentIndex
            wall := fresh.wall
            hands := fresh.hands
            interactionCount := 0
            playedTileInteractions := [] } with
        | none =>
          rw [hcd] at h
          simp at h
          rw [← h]
          rfl
        | some st2 =>
          rw [hcd] at h
          simp at h
          obtain ⟨hc, hp⟩ := changeDealer_preserves_interactions _ _ hcd
          rw [← h, hc, hp]
          rfl
  · intro st0 h0 hnil calls hlen
    obtain ⟨st', h1, h2, h3⟩ := applyInteractions_adds calls st0
      (by rw [h0, hnil]; rfl)
      (by rw [h0]; simp [DEFAULT_MAX_USERS_IN_GAME]; omega)
    exact ⟨st', h1, by rw [h2, h0]; simp, by rw [h3, hnil]; simp⟩

/-- C3 witness: two successful interactions from the freshly reset
sample state leave count 2 and exactly 2 collected entries. -/
theorem interactionCount_matches_length_witness :
    ∃ st', applyInteractions (some sampleGameState)
        [("conn-B", (["p1", "p1", "p1"], ("triplet", false))),
         ("conn-C", ([], ("", true)))] = some st' ∧
      st'.interactionCount = 2 ∧ st'.playedTileInteractions.length = 2 :=
  interactionCount_matches_length.2.2.2.2 sampleGameState rfl rfl
    [("conn-B", (["p1", "p1", "p1"], ("triplet", false))),
     ("conn-C", ([], ("", true)))] (by norm_num)

/-- C6: `startNewRoundAndSendUpdates` first mutates state via
`startNewGameRound`, with `isDealerChanged` true exactly when the
winning caller's connection id differs from the current dealer's; if
the mutation yields no updated state it returns the 400 response with
no broadcast; otherwise it broadcasts UPDATE_GAME_STATE with the new
dealer and wind to all connections in the game, waits the fixed
5-second delay, and then broadcasts the new round's GAME_START hands —
in exactly that order. -/
theorem startNewRoundAndSendUpdates_sequence (store : Option GameState)
    (fresh : FreshRound) (connectionId : String) (users : List User) (dealer : Nat)
    (hdealer : dealer < users.length) :
    ((startNewRoundAndSendUpdates store fresh connectionId users dealer).2.head? =
      some (.stateMutation
        ((users.get ⟨dealer, hdealer⟩).connectionId != connectionId))) ∧
    ((startNewGameRound store fresh
        ((users.get ⟨dealer, hdealer⟩).connectionId != connectionId)).1 = none →
      (startNewRoundAndSendUpdates store fresh connectionId users dealer).1.1 =
        some (response 400 "Cannot start new game round") ∧
      (startNewRoundAndSendUpdates store fresh connectionId users dealer).2 =
        [.stateMutation ((users.get ⟨dealer, hdealer⟩).connectionId != connectionId)]) ∧
    (∀ gs, (startNewGameRound store fresh
        ((users.get ⟨dealer, hdealer⟩).connectionId != connectionId)).1 = some gs →
      (startNewRoundAndSendUpdates store fresh connectionId users dealer).1.1 = none ∧
      (startNewRoundAndSendUpdates store fresh connectionId users dealer).2 =
        [.stateMutation ((users.get ⟨dealer, hdealer⟩).connectionId != connectionId),
         .updateGameState (getConnectionIdsFromUsers users) gs.dealer gs.currentWind,
         .delayMs 5000,
         .gameStart (gameStartMessages gs.hands gs.currentIndex
           (getConnectionIdsFromUsers users))]) := by
  have hgd : users.getD dealer { connectionId := "", username := none, gameId := none } =
      users.get ⟨dealer, hdealer⟩ := by
    rw [List.getD_eq_getElem?_getD, List.getElem?_eq_getElem hdealer]
    rfl
  cases h : (startNewGameRound store fresh
      ((users.get ⟨dealer, hdealer⟩).connectionId != connectionId)).1 with
  | none =>
    have key : startNewRoundAndSendUpdates store fresh connectionId users dealer =
        ((some (response 400 "Cannot start new game round"),
          (startNewGameRound store fresh
            ((users.get ⟨dealer, hdealer⟩).connectionId != connectionId)).2),
         [.stateMutation ((users.get ⟨dealer, hdealer⟩).connectionId != connectionId)]) := by
      simp only [startNewRoundAndSendUpdates, hgd, h]
    exact ⟨by simp [key], fun _ => ⟨by simp [key], by simp [key]⟩,
      fun gs hgs => absurd hgs (by simp [h])⟩
  | some gs0 =>
    have hok : broadcastGameReset (getConnectionIdsFromUsers users) gs0 =
        .ok (gameStartMessages gs0.hands gs0.currentIndex
          (getConnectionIdsFromUsers users)) := rfl
    have key : startNewRoundAndSendUpdates store fresh connectionId users dealer =
        ((none, (startNewGameRound store fresh
            ((users.get ⟨dealer, hdealer⟩).connectionId != connectionId)).2),
         [.stateMutation ((users.get ⟨dealer, hdealer⟩).connectionId != connectionId),
          .updateGameState (getConnectionIdsFromUsers users) gs0.dealer gs0.currentWind,
          .delayMs 5000,
          .gameStart (gameStartMessages gs0.hands gs0.currentIndex
            (getConnectionIdsFromUsers users))]) := by
      simp only [startNewRoundAndSendUpdates, hgd, h, hok]
    refine ⟨by simp [key], fun hn => absurd hn (by simp [h]), fun gs hgs => ?_⟩
    have hgg : gs0 = gs := Option.some_inj.mp hgs
    subst hgg
    exact ⟨by simp [key], by simp [key]⟩

/-- C6 witness: on the sample game won by the current dealer `conn-A`
(seat 0), the first step of the trace is the state mutation with
`isDealerChanged = false`. -/
theorem startNewRoundAndSendUpdates_sequence_witness :
    (startNewRoundAndSendUpdates (some sampleGameState) sampleFresh "conn-A"
      sampleUsers 0).2.head? = some (.stateMutation false) := by
  have h := (startNewRoundAndSendUpdates_sequence (some sampleGameState) sampleFresh
    "conn-A" sampleUsers 0 (by simp [sampleUsers])).1
  rw [h]
  simp [sampleUsers]

/-- Helper: hands lists that agree pointwise on `connectionId` and
`playedTiles` produce the same `selfPlayedTiles` projection. -/
theorem selfPlayedTiles_map_congr :
    ∀ l₁ l₂ : List UserHand, l₁.length = l₂.length →
      (∀ p ∈ l₁.zip l₂,
        p.1.connectionId = p.2.connectionId ∧ p.1.playedTiles = p.2.playedTiles) →
      (l₁.map fun hand => SelfPlayedTile.mk hand.connectionId hand.playedTiles) =
        (l₂.map fun hand => SelfPlayedTile.mk hand.connectionId hand.playedTiles) := by
  intro l₁
  induction l₁ with
  | nil =>
    intro l₂ hlen _
    cases l₂ with
    | nil => rfl
    | cons h₂ t₂ => simp at hlen
  | cons h₁ t₁ ih =>
    intro l₂ hlen hp
    cases l₂ with
    | nil => simp at hlen
    | cons h₂ t₂ =>
      have hh1 : h₁.connectionId = h₂.connectionId := (hp (h₁, h₂) (by simp)).1
      have hh2 : h₁.playedTiles = h₂.playedTiles := (hp (h₁, h₂) (by simp)).2
      have htail := ih t₂ (by simpa using hlen) (fun p hp' => hp p (by simp [hp']))
      simp only [List.map_cons, hh1, hh2, htail]

/-- Helper: hands lists that agree pointwise on `connectionId`, and on
the concealed hand of entries belonging to `c`, yield the same
`getHandByConnectionId` tiles for `c`. -/
theorem getHandByConnectionId_congr (c : String) :
    ∀ l₁ l₂ : List UserHand, l₁.length = l₂.length →
      (∀ p ∈ l₁.zip l₂,
        p.1.connectionId = p.2.connectionId ∧
        (p.1.connectionId = c → p.1.hand = p.2.hand)) →
      (getHandByConnectionId l₁ c).hand = (getHandByConnectionId l₂ c).hand := by
  intro l₁
  induction l₁ with
  | nil =>
    intro l₂ hlen _
    cases l₂ with
    | nil => rfl
    | cons h₂ t₂ => simp at hlen
  | cons h₁ t₁ ih =>
    intro l₂ hlen hp
    cases l₂ with
    | nil => simp at hlen
    | cons h₂ t₂ =>
      have hh1 : h₁.connectionId = h₂.connectionId := (hp (h₁, h₂) (by simp)).1
      have hh2 : h₁.connectionId = c → h₁.hand = h₂.hand := (hp (h₁, h₂) (by simp)).2
      by_cases hc : h₁.connectionId = c
      · have hc₂ : h₂.connectionId = c := by rw [← hh1]; exact hc
        have hf₁ : List.find? (fun h => h.connectionId == c) (h₁ :: t₁) = some h₁ :=
          List.find?_cons_of_pos _ (by simp [hc])
        have hf₂ : List.find? (fun h => h.connectionId == c) (h₂ :: t₂) = some h₂ :=
          List.find?_cons_of_pos _ (by simp [hc₂])
        simp only [getHandByConnectionId, hf₁, hf₂, Option.getD_some]
        exact hh2 hc
      · have hc₂ : ¬h₂.connectionId = c := by rw [← hh1]; exact hc
        have htail := ih t₂ (by simpa using hlen) (fun p hp' => hp p (by simp [hp']))
        have hf₁ : List.find? (fun h => h.connectionId == c) (h₁ :: t₁) =
            List.find? (fun h => h.connectionId == c) t₁ :=
          List.find?_cons_of_neg _ (by simp [hc])
        have hf₂ : List.find? (fun h => h.connectionId == c) (h₂ :: t₂) =
            List.find? (fun h => h.connectionId == c) t₂ :=
          List.find?_cons_of_neg _ (by simp [hc₂])
        simpa only [getHandByConnectionId, hf₁, hf₂] using htail

/-- C5: `broadcastGameStart` (via `broadcastGameReset`, which delegates
to it) sends exactly one personalized payload per connection in the
game; the payload to `c` carries `c`'s own hand as `tiles`, every
player's public `playedTiles` pile, and the shared `currentIndex`; and
the message to `c` does not depend on any other player's concealed
hand — two states that agree on everything except other players'
concealed hands produce identical messages to `c`. -/
theorem broadcastGameStart_personalized (gs : GameState) (cids : List String) :
    (∃ msgs, broadcastGameReset cids gs = .ok msgs ∧
      msgs.map Prod.fst = cids ∧
      (cids.Nodup → ∀ c ∈ cids, (msgs.filter (fun p => p.1 == c)).length = 1) ∧
      (∀ p ∈ msgs,
        p.2.tiles = (getHandByConnectionId gs.hands p.1).hand ∧
        p.2.selfPlayedTiles =
          gs.hands.map (fun hand => SelfPlayedTile.mk hand.connectionId hand.playedTiles) ∧
        p.2.currentIndex = gs.currentIndex)) ∧
    (∀ gs₂ c msgs₁ msgs₂, agreeExceptConcealed c gs gs₂ →
      broadcastGameReset cids gs = .ok msgs₁ →
      broadcastGameReset cids gs₂ = .ok msgs₂ →
      ∀ p₁ ∈ msgs₁, ∀ p₂ ∈ msgs₂, p₁.1 = c → p₂.1 = c → p₁.2 = p₂.2) := by
  have hok : ∀ g : GameState, broadcastGameReset cids g =
      .ok (gameStartMessages g.hands g.currentIndex cids) := fun g => rfl
  constructor
  · refine ⟨gameStartMessages gs.hands gs.currentIndex cids, hok gs, ?_, ?_, ?_⟩
    · simp only [gameStartMessages, List.map_map]
      exact List.map_id cids
    · intro hnodup c hc
      rw [← List.countP_eq_length_filter]
      simp only [gameStartMessages, List.countP_map]
      have : cids.countP ((fun p : String × GameStartPayload => p.1 == c) ∘
          (fun connectionId =>
            (connectionId,
              { tiles := (getHandByConnectionId gs.hands connectionId).hand
                selfPlayedTiles := gs.hands.map
                  (fun hand => SelfPlayedTile.mk hand.connectionId hand.playedTiles)
                currentIndex := gs.currentIndex }))) = cids.count c := by
        rfl
      rw [this]
      exact List.count_eq_one_of_mem hnodup hc
    · intro p hp
      simp only [gameStartMessages, List.mem_map] at hp
      obtain ⟨c', _, rfl⟩ := hp
      exact ⟨rfl, rfl, rfl⟩
  · intro gs₂ c msgs₁ msgs₂ hagree h₁ h₂ p₁ hp₁ p₂ hp₂ hpc₁ hpc₂
    rw [hok gs] at h₁
    rw [hok gs₂] at h₂
    injection h₁ with h₁
    injection h₂ with h₂
    subst h₁
    subst h₂
    simp only [gameStartMessages, List.mem_map] at hp₁ hp₂
    obtain ⟨c₁', _, rfl⟩ := hp₁
    obtain ⟨c₂', _, rfl⟩ := hp₂
    obtain ⟨hidx, hlen, hzip⟩ := hagree
    have hc₁ : c₁' = c := hpc₁
    have hc₂ : c₂' = c := hpc₂
    have htiles := getHandByConnectionId_congr c gs.hands gs₂.hands hlen
      (fun p hp' => ⟨(hzip p hp').1, (hzip p hp').2.2⟩)
    have hspt := selfPlayedTiles_map_congr gs.hands gs₂.hands hlen
      (fun p hp' => ⟨(hzip p hp').1, (hzip p hp').2.1⟩)
    simp only [hc₁, hc₂, htiles, hspt, hidx]

/-- C5 witness: `sampleGameState` and `sampleGameStateB` differ only in
`conn-B`'s concealed hand, and the GAME_START payload delivered to
`conn-A` is identical for both states. -/
theorem broadcastGameStart_personalized_witness :
    agreeExceptConcealed "conn-A" sampleGameState sampleGameStateB ∧
    GameStartPayload.mk (getHandByConnectionId sampleGameState.hands "conn-A").hand
        (sampleGameState.hands.map
          (fun hand => SelfPlayedTile.mk hand.connectionId hand.playedTiles))
        sampleGameState.currentIndex =
      GameStartPayload.mk (getHandByConnectionId sampleGameStateB.hands "conn-A").hand
        (sampleGameStateB.hands.map
          (fun hand => SelfPlayedTile.mk hand.connectionId hand.playedTiles))
        sampleGameStateB.currentIndex := by
  have hagree : agreeExceptConcealed "conn-A" sampleGameState sampleGameStateB := by
    refine ⟨rfl, rfl, ?_⟩
    decide
  refine ⟨hagree, ?_⟩
  exact (broadcastGameStart_personalized sampleGameState ["conn-A"]).2 sampleGameStateB
    "conn-A"
    (gameStartMessages sampleGameState.hands sampleGameState.currentIndex ["conn-A"])
    (gameStartMessages sampleGameStateB.hands sampleGameStateB.currentIndex ["conn-A"])
    hagree rfl rfl
    ("conn-A",
      GameStartPayload.mk (getHandByConnectionId sampleGameState.hands "conn-A").hand
        (sampleGameState.hands.map
          (fun hand => SelfPlayedTile.mk hand.connectionId hand.playedTiles))
        sampleGameState.currentIndex)
    (by simp [gameStartMessages])
    ("conn-A",
      GameStartPayload.mk (getHandByConnectionId sampleGameStateB.hands "conn-A").hand
        (sampleGameStateB.hands.map
          (fun hand => SelfPlayedTile.mk hand.connectionId hand.playedTiles))
        sampleGameStateB.currentIndex)
    (by simp [gameStartMessages])
    rfl rfl

/-- C9 counterexample: a caller whose connection record already carries
`gameId = "game-0"` invokes CREATE_GAME; the handler does fail (500),
but the Games table is no longer what it was — a new Game record was
created before the conditional link was rejected, so "on that failure no
mutation occurs" is false on the code. -/
theorem onCreateGame_counterexample :
    (onCreateGame "conn-A"
      (some { gameName := some "mahjong", gameType := some "HongKong",
              gameVersion := some "0.1" })
      { callerRecord := some { connectionId := "conn-A", username := some "alice",
                               gameId := some "game-0" },
        games := [] } "game-1").1.statusCode = 500 ∧
    ¬((onCreateGame "conn-A"
      (some { gameName := some "mahjong", gameType := some "HongKong",
              gameVersion := some "0.1" })
      { callerRecord := some { connectionId := "conn-A", username := some "alice",
                               gameId := some "game-0" },
        games := [] } "game-1").2.games = []) := by
  constructor
  · rfl
  · decide

/-- C9 (amended): when the creating connection already has an active
game reference, the CREATE_GAME handler fails (500) and the caller's
connection record is unchanged, but the Game record created before the
rejected conditional link persists in the Games table — the failure is
not mutation-free. -/
theorem onCreateGame_orphan_game (cid : String) (u : User)
    (pg : CreateGamePayloadGame) (store : LobbyStore) (newGameId g0 : String)
    (hrec : store.callerRecord = some u) (hcid : u.connectionId = cid)
    (hgid : u.gameId = some g0) :
    (onCreateGame cid (some pg) store newGameId).1.statusCode = 500 ∧
    (onCreateGame cid (some pg) store newGameId).2.callerRecord = store.callerRecord ∧
    (onCreateGame cid (some pg) store newGameId).2.games =
      store.games ++ [{ gameId := newGameId, gameName := pg.gameName,
                        gameType := pg.gameType, gameVersion := pg.gameVersion,
                        creatorConnectionId := cid }] := by
  have hcond : ¬(u.connectionId = cid ∧ u.gameId = none) := by
    rintro ⟨-, h⟩
    rw [hgid] at h
    exact Option.noConfusion h
  refine ⟨?_, ?_, ?_⟩ <;>
    simp [onCreateGame, createGame, setGameIdForUser, hrec, hcond, response]

/-- C9 witness: the amended statement at the counterexample's input —
500, caller record untouched, and exactly the orphan Game appended. -/
theorem onCreateGame_orphan_game_witness :
    (onCreateGame "conn-A"
      (some { gameName := some "mahjong", gameType := some "HongKong",
              gameVersion := some "0.1" })
      { callerRecord := some { connectionId := "conn-A", username := some "alice",
                               gameId := some "game-0" },
        games := [] } "game-1").2.games =
      [] ++ [{ gameId := "game-1", gameName := some "mahjong",
               gameType := some "HongKong", gameVersion := some "0.1",
               creatorConnectionId := "conn-A" }] :=
  (onCreateGame_orphan_game "conn-A"
    { connectionId := "conn-A", username := some "alice", gameId := some "game-0" }
    { gameName := some "mahjong", gameType := some "HongKong", gameVersion := some "0.1" }
    { callerRecord := some { connectionId := "conn-A", username := some "alice",
                             gameId := some "game-0" },
      games := [] } "game-1" "game-0" rfl rfl rfl).2.2

end GamblingKings
